import Mathlib

/-!
# A shallow embedding of the `SafetyRules` consensus safety kernel

This file embeds `consensus/safety-rules/src/safety_rules.rs` — the safety
kernel of the Libra (HotStuff-family) BFT consensus protocol — and proves the
specification's claims about it.

Modelling conventions:

* `u64` rounds, epochs and versions become `Nat` (the kernel only compares
  and copies them; no overflowing arithmetic occurs).
* `HashValue` is abstracted as `Nat`; `HashValue::zero()` is `0`.
* Cryptographic verification is abstracted into function-valued fields:
  a `QuorumCert` carries `verify_result`, the outcome of
  `qc.verify(validator_verifier)` for each verifier; an
  `AccumulatorExtensionProof` carries `verify`, the outcome of checking the
  proof against an original root hash; an `EpochChangeProof` carries
  `chains_from`, the outcome of `proof.verify(&waypoint)`, together with the
  last ledger info the successful verification returns.
* `ValidatorVerifier` is an opaque identity (`Nat`): the kernel only stores
  it and hands it to `QuorumCert.verify_result`.
* The persistent safety storage is a record of the five persisted values;
  each kernel operation returns, besides its result and the new in-memory
  state, the ordered trace of durable writes and signature productions it
  performed (`Event`).  Durability ordering facts ("persist before signing",
  "waypoint first, epoch last") are stated over that trace: a crash
  corresponds to replaying a prefix of the trace onto the initial storage.
* Storage I/O errors (`InternalStorage`) are not modelled: every modelled
  write succeeds, and the effect of an interrupted sequence of writes is
  captured by prefix replay as above.
-/

namespace LibraSafetyRules

/-- Opaque identity of a `ValidatorVerifier` (the current epoch's validator
set); the kernel never inspects it beyond storing it and passing it to
`QuorumCert.verify_result`. -/
abbrev ValidatorVerifier := Nat

/-- Embeds `EpochState`: the next epoch number together with its validator
verifier, as carried by an epoch-ending `LedgerInfo`. -/
structure EpochState where
  epoch : Nat
  verifier : ValidatorVerifier
deriving DecidableEq, Repr

/-- Embeds `BlockInfo`: (epoch, round, id, executed_state_id, version,
next_epoch_state), hashes abstracted as `Nat`. -/
structure BlockInfo where
  epoch : Nat
  round : Nat
  id : Nat
  executed_state_id : Nat
  version : Nat
  next_epoch_state : Option EpochState
deriving DecidableEq, Repr

/-- Embeds `BlockInfo::empty()`. -/
def BlockInfo.empty : BlockInfo :=
  { epoch := 0, round := 0, id := 0, executed_state_id := 0, version := 0,
    next_epoch_state := none }

/-- Embeds `LedgerInfo`: a commitment over a `BlockInfo` plus the consensus data
hash. -/
structure LedgerInfo where
  commit_info : BlockInfo
  consensus_data_hash : Nat
deriving DecidableEq, Repr

/-- Embeds `LedgerInfo::new(commit_info, hash)`. -/
def LedgerInfo.new (commit_info : BlockInfo) (consensus_data_hash : Nat) :
    LedgerInfo :=
  { commit_info := commit_info, consensus_data_hash := consensus_data_hash }

/-- Embeds `LedgerInfo::next_epoch_state` delegates to the committed block info. -/
def LedgerInfo.next_epoch_state (li : LedgerInfo) : Option EpochState :=
  li.commit_info.next_epoch_state

/-- Embeds `Waypoint`: a trusted commitment to an epoch-boundary ledger info.  The
real waypoint is `(version, hash(converted ledger info))`; since hashes are
abstract we keep the ledger info itself as the commitment value. -/
structure Waypoint where
  value : LedgerInfo
deriving DecidableEq, Repr

/-- Embeds `Waypoint::new_epoch_boundary(ledger_info)`. -/
def Waypoint.new_epoch_boundary (li : LedgerInfo) : Waypoint := ⟨li⟩

/-- Embeds `QuorumCert`: certified and parent `BlockInfo`s from the vote data, the
inner `LedgerInfo` of its `LedgerInfoWithSignatures`, and the abstracted
outcome of `qc.verify(verifier)` (`Except.error msg` is a failed aggregated
signature check with that message). -/
structure QuorumCert where
  certified_block : BlockInfo
  parent_block : BlockInfo
  ledger_info : LedgerInfo
  verify_result : ValidatorVerifier → Except String Unit

/-- Embeds `QuorumCert::ends_epoch()`: the carried ledger info has a
`next_epoch_state`. -/
def QuorumCert.ends_epoch (qc : QuorumCert) : Bool :=
  qc.ledger_info.next_epoch_state.isSome

/-- Embeds `BlockData`: the signed content of a block; the transaction payload is
opaque (`Nat`). -/
structure BlockData where
  epoch : Nat
  round : Nat
  quorum_cert : QuorumCert
  payload : Nat

/-- What the validator signer signs; stands for the hash of the
corresponding serialized value. -/
inductive Message where
  | voteMsg (ledger_info : LedgerInfo)
  | timeoutMsg (epoch : Nat) (round : Nat)
  | proposalMsg (epoch : Nat) (round : Nat)
deriving DecidableEq, Repr

/-- A deterministic signature: the signing key together with the signed
message (so equal key and message give equal signatures). -/
structure Signature where
  key : Nat
  message : Message
deriving DecidableEq, Repr

/-- Embeds `ValidatorSigner`: the validator's author identity bound to its
consensus private key. -/
structure ValidatorSigner where
  author : Nat
  consensus_key : Nat
deriving DecidableEq, Repr

/-- Deterministic signing: `sign(key, m)` is a function of the key and the
message. -/
def ValidatorSigner.sign (vs : ValidatorSigner) (m : Message) : Signature :=
  { key := vs.consensus_key, message := m }

/-- Embeds `Block`: id (abstract hash of the block data), the block data, and the
author's signature when present. -/
structure Block where
  id : Nat
  block_data : BlockData
  signature : Option Signature

/-- Embeds `block.epoch()`. -/
def Block.epoch (b : Block) : Nat := b.block_data.epoch

/-- Embeds `block.round()`. -/
def Block.round (b : Block) : Nat := b.block_data.round

/-- Embeds `block.quorum_cert()`. -/
def Block.quorum_cert (b : Block) : QuorumCert := b.block_data.quorum_cert

/-- Embeds `Block::new_proposal_from_block_data(block_data, signer)`: the id is the
hash of the block data (abstract, modelled as `0`), and the signature covers
the block data's identifying fields. -/
def Block.new_proposal_from_block_data (bd : BlockData)
    (signer : ValidatorSigner) : Block :=
  { id := 0, block_data := bd,
    signature := some (signer.sign (.proposalMsg bd.epoch bd.round)) }

/-- Embeds `block.gen_block_info(root_hash, version, next_epoch_state)`. -/
def Block.gen_block_info (b : Block) (root_hash : Nat) (version : Nat)
    (nes : Option EpochState) : BlockInfo :=
  { epoch := b.epoch, round := b.round, id := b.id,
    executed_state_id := root_hash, version := version,
    next_epoch_state := nes }

/-- The accumulator summary returned by a successful
`AccumulatorExtensionProof::verify`. -/
structure AccumulatorTree where
  root_hash : Nat
  version : Nat
deriving DecidableEq, Repr

/-- Embeds `AccumulatorExtensionProof`, abstracted as the outcome of verifying it
against each original accumulator root hash. -/
structure AccumulatorExtensionProof where
  verify : Nat → Except String AccumulatorTree

/-- Embeds `VoteProposal`: the block, its accumulator extension proof and the
optional next epoch state. -/
structure VoteProposal where
  block : Block
  accumulator_extension_proof : AccumulatorExtensionProof
  next_epoch_state : Option EpochState

/-- Embeds `VoteData::new(proposed, parent)`. -/
structure VoteData where
  proposed : BlockInfo
  parent : BlockInfo
deriving DecidableEq, Repr

/-- Embeds `Vote`: vote data, author, the ledger info the vote commits to, and the
signature over that ledger info. -/
structure Vote where
  vote_data : VoteData
  author : Nat
  ledger_info : LedgerInfo
  signature : Signature
deriving DecidableEq, Repr

/-- Embeds `Vote::new(vote_data, author, ledger_info, signer)` signs the ledger
info. -/
def Vote.new (vd : VoteData) (author : Nat) (li : LedgerInfo)
    (signer : ValidatorSigner) : Vote :=
  { vote_data := vd, author := author, ledger_info := li,
    signature := signer.sign (.voteMsg li) }

/-- Embeds `Timeout`: (epoch, round). -/
structure Timeout where
  epoch : Nat
  round : Nat
deriving DecidableEq, Repr

/-- Embeds `timeout.sign(signer)`. -/
def Timeout.sign (t : Timeout) (signer : ValidatorSigner) : Signature :=
  signer.sign (.timeoutMsg t.epoch t.round)

/-- Embeds `EpochChangeProof`, abstracted: `verify(&waypoint)` succeeds exactly when
the proof chains from that waypoint, and then returns the proof's last
ledger info (which does not depend on the waypoint). -/
structure EpochChangeProof where
  last_li : LedgerInfo
  chains_from : Waypoint → Bool

/-- Embeds `EpochChangeProof::verify(waypoint)`. -/
def EpochChangeProof.verify (proof : EpochChangeProof) (w : Waypoint) :
    Except String LedgerInfo :=
  if proof.chains_from w then .ok proof.last_li
  else .error "waypoint mismatch"

/-- Embeds `ConsensusState`: the snapshot returned by `consensus_state()`. -/
structure ConsensusState where
  epoch : Nat
  last_voted_round : Nat
  preferred_round : Nat
  waypoint : Waypoint
deriving DecidableEq, Repr

/-- The error taxonomy of the kernel (`error.rs`); reason strings kept where
the kernel constructs them. -/
inductive Error where
  | NotInitialized
  | IncorrectEpoch (got : Nat) (expected : Nat)
  | OldProposal (proposal_round : Nat) (last_voted_round : Nat)
  | ProposalRoundLowerThenPreferredBlock (preferred_round : Nat)
  | InvalidQuorumCertificate (reason : String)
  | InvalidAccumulatorExtension (error : String)
  | InvalidLedgerInfo
  | WaypointMismatch (reason : String)
  | BadTimeoutPreferredRound (round : Nat) (preferred : Nat)
  | BadTimeoutLastVotedRound (round : Nat) (last : Nat)
deriving DecidableEq, Repr

/-- The five durably persisted records of the `PersistentSafetyStorage`. -/
structure PersistentSafetyStorage where
  consensus_key : Nat
  epoch : Nat
  last_voted_round : Nat
  preferred_round : Nat
  waypoint : Waypoint
deriving DecidableEq, Repr

/-- One observable effect of a kernel operation: a durable write to one of
the persisted records, or the production of a signature. -/
inductive Event where
  | setWaypoint (w : Waypoint)
  | setLastVotedRound (r : Nat)
  | setPreferredRound (r : Nat)
  | setEpoch (e : Nat)
  | signed (m : Message)
deriving DecidableEq, Repr

/-- Whether an event is the production of a signature. -/
def Event.isSigned : Event → Bool
  | .signed _ => true
  | _ => false

/-- Replay one durable write onto a storage snapshot (signature production
does not touch storage).  Replaying a prefix of an operation's trace gives
the storage a crash at that point would leave behind. -/
def applyEvent (st : PersistentSafetyStorage) : Event → PersistentSafetyStorage
  | .setWaypoint w => { st with waypoint := w }
  | .setLastVotedRound r => { st with last_voted_round := r }
  | .setPreferredRound r => { st with preferred_round := r }
  | .setEpoch e => { st with epoch := e }
  | .signed _ => st

/-- The in-memory state of `SafetyRules`: the storage handle, the signer, and
the optional current-epoch validator verifier. -/
structure SafetyRules where
  persistent_storage : PersistentSafetyStorage
  validator_signer : ValidatorSigner
  validator_verifier : Option ValidatorVerifier
deriving DecidableEq, Repr

/-- Result of one kernel operation: the returned value or error, the new
in-memory state, and the ordered trace of durable writes and signature
productions the operation performed. -/
structure StepResult (α : Type) where
  result : Except Error α
  state : SafetyRules
  trace : List Event

/-- Embeds `construct_ledger_info(proposed_block)`: the 3-chain commit rule.
Commits the QC's parent block (consensus data hash zeroed) exactly when
`round(B0) + 1 = round(B1)` and `round(B1) + 1 = round(B2)`; otherwise an
empty `BlockInfo`. -/
def construct_ledger_info (proposed_block : Block) : LedgerInfo :=
  let block2 := proposed_block.round
  let block1 := proposed_block.quorum_cert.certified_block.round
  let block0 := proposed_block.quorum_cert.parent_block.round
  let commit := (block0 + 1 == block1) && (block1 + 1 == block2)
  if commit then
    LedgerInfo.new proposed_block.quorum_cert.parent_block 0
  else
    LedgerInfo.new BlockInfo.empty 0

/-- Embeds `verify_qc(qc)`: verifier must be present, the QC's aggregated
signatures must verify, and the parent round must not regress below the
preferred round. -/
def verify_qc (s : SafetyRules) (qc : QuorumCert) : Except Error Unit :=
  match s.validator_verifier with
  | none => .error .NotInitialized
  | some validator_verifier =>
    match qc.verify_result validator_verifier with
    | .error e => .error (.InvalidQuorumCertificate e)
    | .ok () =>
      if qc.parent_block.round < s.persistent_storage.preferred_round then
        .error (.InvalidQuorumCertificate "Preferred round too early")
      else
        .ok ()

/-- Embeds `start_new_epoch(ledger_info)`: replace the in-memory verifier; when the
carried epoch is newer than the stored one, durably write waypoint, then
`last_voted_round := 0`, then `preferred_round := 0`, then the epoch, in
that order. -/
def start_new_epoch (s : SafetyRules) (ledger_info : LedgerInfo) :
    StepResult Unit :=
  match ledger_info.next_epoch_state with
  | none => ⟨.error .InvalidLedgerInfo, s, []⟩
  | some epoch_state =>
    let s := { s with validator_verifier := some epoch_state.verifier }
    let current_epoch := s.persistent_storage.epoch
    if current_epoch < epoch_state.epoch then
      let w := Waypoint.new_epoch_boundary ledger_info
      ⟨.ok (),
        { s with persistent_storage :=
            { s.persistent_storage with
              waypoint := w, last_voted_round := 0, preferred_round := 0,
              epoch := epoch_state.epoch } },
        [.setWaypoint w, .setLastVotedRound 0, .setPreferredRound 0,
          .setEpoch epoch_state.epoch]⟩
    else
      ⟨.ok (), s, []⟩

/-- Embeds `verify_epoch(epoch)`: the given epoch must equal the stored epoch. -/
def verify_epoch (s : SafetyRules) (epoch : Nat) : Except Error Unit :=
  let expected_epoch := s.persistent_storage.epoch
  if epoch ≠ expected_epoch then .error (.IncorrectEpoch epoch expected_epoch)
  else .ok ()

/-- Embeds `consensus_state()`: snapshot of the four non-key persisted records. -/
def consensus_state (s : SafetyRules) : StepResult ConsensusState :=
  ⟨.ok { epoch := s.persistent_storage.epoch,
         last_voted_round := s.persistent_storage.last_voted_round,
         preferred_round := s.persistent_storage.preferred_round,
         waypoint := s.persistent_storage.waypoint },
    s, []⟩

/-- The kernel's `initialize(proof)` (named `initialize_kernel` here):
verify the proof against the stored waypoint, then run the epoch-start
routine on the proof's last ledger info. -/
def initialize_kernel (s : SafetyRules) (proof : EpochChangeProof) :
    StepResult Unit :=
  let waypoint := s.persistent_storage.waypoint
  match proof.verify waypoint with
  | .error e => ⟨.error (.WaypointMismatch e), s, []⟩
  | .ok last_li => start_new_epoch s last_li

/-- Embeds `update(qc)`: verify the QC; an epoch-ending QC starts a new epoch,
otherwise the preferred round is set to the QC's parent round. -/
def update (s : SafetyRules) (qc : QuorumCert) : StepResult Unit :=
  match verify_qc s qc with
  | .error e => ⟨.error e, s, []⟩
  | .ok () =>
    if qc.ends_epoch then
      start_new_epoch s qc.ledger_info
    else
      ⟨.ok (),
        { s with persistent_storage :=
            { s.persistent_storage with
              preferred_round := qc.parent_block.round } },
        [.setPreferredRound qc.parent_block.round]⟩

/-- Embeds `construct_and_sign_vote(vote_proposal)`: epoch check, increasing-round
rule, preferred-round rule, accumulator extension verification; then persist
`last_voted_round := block.round` before signing the vote. -/
def construct_and_sign_vote (s : SafetyRules) (vote_proposal : VoteProposal) :
    StepResult Vote :=
  let proposed_block := vote_proposal.block
  match verify_epoch s proposed_block.epoch with
  | .error e => ⟨.error e, s, []⟩
  | .ok () =>
    let last_voted_round := s.persistent_storage.last_voted_round
    if proposed_block.round ≤ last_voted_round then
      ⟨.error (.OldProposal proposed_block.round last_voted_round), s, []⟩
    else
      let preferred_round := s.persistent_storage.preferred_round
      if proposed_block.quorum_cert.certified_block.round < preferred_round then
        ⟨.error (.ProposalRoundLowerThenPreferredBlock preferred_round), s, []⟩
      else
        match vote_proposal.accumulator_extension_proof.verify
            proposed_block.quorum_cert.certified_block.executed_state_id with
        | .error e => ⟨.error (.InvalidAccumulatorExtension e), s, []⟩
        | .ok new_tree =>
          let li := construct_ledger_info proposed_block
          let vote := Vote.new
            { proposed := proposed_block.gen_block_info new_tree.root_hash
                new_tree.version vote_proposal.next_epoch_state,
              parent := proposed_block.quorum_cert.certified_block }
            s.validator_signer.author li s.validator_signer
          ⟨.ok vote,
            { s with persistent_storage :=
                { s.persistent_storage with
                  last_voted_round := proposed_block.round } },
            [.setLastVotedRound proposed_block.round,
              .signed (.voteMsg li)]⟩

/-- Embeds `sign_proposal(block_data)`: signs unconditionally (the kernel currently
enforces no round or epoch checks here). -/
def sign_proposal (s : SafetyRules) (block_data : BlockData) :
    StepResult Block :=
  let b := Block.new_proposal_from_block_data block_data s.validator_signer
  ⟨.ok b, s, [.signed (.proposalMsg block_data.epoch block_data.round)]⟩

/-- Embeds `sign_timeout(timeout)`: epoch check; reject rounds at or below the
preferred round, then rounds below the last voted round; persist
`last_voted_round := timeout.round` before signing when the round is
strictly greater, and sign without rewriting when it is equal. -/
def sign_timeout (s : SafetyRules) (timeout : Timeout) :
    StepResult Signature :=
  match verify_epoch s timeout.epoch with
  | .error e => ⟨.error e, s, []⟩
  | .ok () =>
    let preferred_round := s.persistent_storage.preferred_round
    if timeout.round ≤ preferred_round then
      ⟨.error (.BadTimeoutPreferredRound timeout.round preferred_round), s, []⟩
    else
      let last_voted_round := s.persistent_storage.last_voted_round
      if timeout.round < last_voted_round then
        ⟨.error (.BadTimeoutLastVotedRound timeout.round last_voted_round),
          s, []⟩
      else if timeout.round > last_voted_round then
        ⟨.ok (timeout.sign s.validator_signer),
          { s with persistent_storage :=
              { s.persistent_storage with
                last_voted_round := timeout.round } },
          [.setLastVotedRound timeout.round,
            .signed (.timeoutMsg timeout.epoch timeout.round)]⟩
      else
        ⟨.ok (timeout.sign s.validator_signer), s,
          [.signed (.timeoutMsg timeout.epoch timeout.round)]⟩

/-- One invocation of one of the six public kernel operations, with its
input. -/
inductive Op where
  | consensusStateOp
  | initOp (proof : EpochChangeProof)
  | updateOp (qc : QuorumCert)
  | voteOp (vp : VoteProposal)
  | proposalOp (bd : BlockData)
  | timeoutOp (t : Timeout)

/-- Run one operation, keeping the state it leaves and the trace it emits
(its heterogeneous return value is dropped). -/
def stepOp (s : SafetyRules) : Op → SafetyRules × List Event
  | .consensusStateOp => ((consensus_state s).state, (consensus_state s).trace)
  | .initOp proof =>
      ((initialize_kernel s proof).state, (initialize_kernel s proof).trace)
  | .updateOp qc => ((update s qc).state, (update s qc).trace)
  | .voteOp vp =>
      ((construct_and_sign_vote s vp).state, (construct_and_sign_vote s vp).trace)
  | .proposalOp bd => ((sign_proposal s bd).state, (sign_proposal s bd).trace)
  | .timeoutOp t => ((sign_timeout s t).state, (sign_timeout s t).trace)

/-- The state an operation leaves behind. -/
def runOp (s : SafetyRules) (op : Op) : SafetyRules := (stepOp s op).1

/-! ## Concrete fixtures used by witnesses and counterexamples -/

/-- A block info at a given epoch and round, with a fixed executed state id
of 7. -/
def biAt (epoch round : Nat) : BlockInfo :=
  { epoch := epoch, round := round, id := round, executed_state_id := 7,
    version := 0, next_epoch_state := none }

/-- A genesis-like waypoint fixture. -/
def wpFix : Waypoint := ⟨LedgerInfo.new BlockInfo.empty 0⟩

/-- A storage fixture: epoch 1, both rounds 0. -/
def storageFix : PersistentSafetyStorage :=
  { consensus_key := 1, epoch := 1, last_voted_round := 0,
    preferred_round := 0, waypoint := wpFix }

/-- A signer fixture. -/
def signerFix : ValidatorSigner := { author := 10, consensus_key := 1 }

/-- A kernel fixture on which `initialize_kernel` has never been called
(verifier absent). -/
def srFix : SafetyRules :=
  { persistent_storage := storageFix, validator_signer := signerFix,
    validator_verifier := none }

/-- The same kernel with the verifier present. -/
def srInit : SafetyRules := { srFix with validator_verifier := some 0 }

/-- A valid, non-epoch-ending QC certifying round 2 with parent round 1. -/
def qcFix : QuorumCert :=
  { certified_block := biAt 1 2, parent_block := biAt 1 1,
    ledger_info := LedgerInfo.new BlockInfo.empty 0,
    verify_result := fun _ => .ok () }

/-- A proposed block at epoch 1 round 3 on top of `qcFix`. -/
def blkFix : Block :=
  { id := 3,
    block_data := { epoch := 1, round := 3, quorum_cert := qcFix, payload := 0 },
    signature := none }

/-- An accumulator extension proof that verifies exactly against root 7. -/
def accFix : AccumulatorExtensionProof :=
  { verify := fun h =>
      if h = 7 then .ok { root_hash := 11, version := 5 } else .error "mismatch" }

/-- A vote proposal fixture that passes all four checks on `srFix`. -/
def vpFix : VoteProposal :=
  { block := blkFix, accumulator_extension_proof := accFix,
    next_epoch_state := none }

/-- A block whose QC has parent round 10 and certified round 11, proposed at
round 12 (the positive 3-chain scenario). -/
def blkCommit : Block :=
  { id := 12,
    block_data :=
      { epoch := 1, round := 12,
        quorum_cert :=
          { certified_block := biAt 1 11, parent_block := biAt 1 10,
            ledger_info := LedgerInfo.new BlockInfo.empty 0,
            verify_result := fun _ => .ok () },
        payload := 0 },
    signature := none }

/-- A block whose QC has parent round 9 and certified round 11, proposed at
round 12 (the negative 3-chain scenario). -/
def blkNoCommit : Block :=
  { id := 12,
    block_data :=
      { epoch := 1, round := 12,
        quorum_cert :=
          { certified_block := biAt 1 11, parent_block := biAt 1 9,
            ledger_info := LedgerInfo.new BlockInfo.empty 0,
            verify_result := fun _ => .ok () },
        payload := 0 },
    signature := none }

/-! ## C5: the 3-chain commit rule -/

/-- C5: `construct_ledger_info(b)` commits `b.quorum_cert.parent_block` with
a zero consensus data hash exactly when `parent.round + 1 =
certified.round` and `certified.round + 1 = b.round`, and otherwise returns
a ledger info over an empty block info; rounds (10, 11, 12) commit the
round-10 parent and rounds (9, 11, 12) commit nothing. -/
theorem construct_ledger_info_commit_rule :
    (∀ b : Block,
      construct_ledger_info b =
        if b.quorum_cert.parent_block.round + 1 =
              b.quorum_cert.certified_block.round ∧
            b.quorum_cert.certified_block.round + 1 = b.round then
          LedgerInfo.new b.quorum_cert.parent_block 0
        else
          LedgerInfo.new BlockInfo.empty 0) ∧
    construct_ledger_info blkCommit =
      LedgerInfo.new blkCommit.quorum_cert.parent_block 0 ∧
    blkCommit.quorum_cert.parent_block.round = 10 ∧
    construct_ledger_info blkNoCommit = LedgerInfo.new BlockInfo.empty 0 := by
  refine ⟨fun b => ?_, by decide, by decide, by decide⟩
  simp only [construct_ledger_info, Bool.and_eq_true, beq_iff_eq]

/-! ## C2: order of the vote-path rejection checks -/

/-- C2: `construct_and_sign_vote` rejects in this order — epoch mismatch
with `IncorrectEpoch`, then `round ≤ last_voted_round` with `OldProposal`
(equality included), then `certified_block.round < preferred_round` with
`ProposalRoundLowerThenPreferredBlock`, then a failing accumulator extension
proof with `InvalidAccumulatorExtension`; only when all four checks pass
does it persist the round and sign. -/
theorem construct_and_sign_vote_check_order (s : SafetyRules)
    (vp : VoteProposal) :
    (vp.block.epoch ≠ s.persistent_storage.epoch →
      (construct_and_sign_vote s vp).result =
        .error (.IncorrectEpoch vp.block.epoch s.persistent_storage.epoch) ∧
      (construct_and_sign_vote s vp).state = s ∧
      (construct_and_sign_vote s vp).trace = []) ∧
    (vp.block.epoch = s.persistent_storage.epoch →
      vp.block.round ≤ s.persistent_storage.last_voted_round →
      (construct_and_sign_vote s vp).result =
        .error (.OldProposal vp.block.round
          s.persistent_storage.last_voted_round) ∧
      (construct_and_sign_vote s vp).state = s ∧
      (construct_and_sign_vote s vp).trace = []) ∧
    (vp.block.epoch = s.persistent_storage.epoch →
      s.persistent_storage.last_voted_round < vp.block.round →
      vp.block.quorum_cert.certified_block.round <
        s.persistent_storage.preferred_round →
      (construct_and_sign_vote s vp).result =
        .error (.ProposalRoundLowerThenPreferredBlock
          s.persistent_storage.preferred_round) ∧
      (construct_and_sign_vote s vp).state = s ∧
      (construct_and_sign_vote s vp).trace = []) ∧
    (vp.block.epoch = s.persistent_storage.epoch →
      s.persistent_storage.last_voted_round < vp.block.round →
      s.persistent_storage.preferred_round ≤
        vp.block.quorum_cert.certified_block.round →
      ∀ e, vp.accumulator_extension_proof.verify
          vp.block.quorum_cert.certified_block.executed_state_id = .error e →
      (construct_and_sign_vote s vp).result =
        .error (.InvalidAccumulatorExtension e) ∧
      (construct_and_sign_vote s vp).state = s ∧
      (construct_and_sign_vote s vp).trace = []) ∧
    (vp.block.epoch = s.persistent_storage.epoch →
      s.persistent_storage.last_voted_round < vp.block.round →
      s.persistent_storage.preferred_round ≤
        vp.block.quorum_cert.certified_block.round →
      ∀ nt, vp.accumulator_extension_proof.verify
          vp.block.quorum_cert.certified_block.executed_state_id = .ok nt →
      (∃ v, (construct_and_sign_vote s vp).result = .ok v) ∧
      (construct_and_sign_vote s vp).state.persistent_storage =
        { s.persistent_storage with last_voted_round := vp.block.round } ∧
      (construct_and_sign_vote s vp).trace =
        [.setLastVotedRound vp.block.round,
          .signed (.voteMsg (construct_ledger_info vp.block))]) := by
  refine ⟨fun h1 => ?_, fun h1 h2 => ?_, fun h1 h2 h3 => ?_,
    fun h1 h2 h3 e hacc => ?_, fun h1 h2 h3 nt hacc => ?_⟩
  · simp [construct_and_sign_vote, verify_epoch, h1]
  · simp [construct_and_sign_vote, verify_epoch, h1, h2]
  · have h2' : ¬ vp.block.round ≤ s.persistent_storage.last_voted_round := by
      omega
    simp [construct_and_sign_vote, verify_epoch, h1, h2', h3]
  · have h2' : ¬ vp.block.round ≤ s.persistent_storage.last_voted_round := by
      omega
    have h3' : ¬ vp.block.quorum_cert.certified_block.round <
        s.persistent_storage.preferred_round := by omega
    simp [construct_and_sign_vote, verify_epoch, h1, h2', h3', hacc]
  · have h2' : ¬ vp.block.round ≤ s.persistent_storage.last_voted_round := by
      omega
    have h3' : ¬ vp.block.quorum_cert.certified_block.round <
        s.persistent_storage.preferred_round := by omega
    simp [construct_and_sign_vote, verify_epoch, h1, h2', h3', hacc]

/-- Witness for C2: on the fixture kernel, the passing vote proposal at
round 3 persists the round and signs. -/
theorem construct_and_sign_vote_check_order_witness :
    (∃ v, (construct_and_sign_vote srFix vpFix).result = .ok v) ∧
    (construct_and_sign_vote srFix vpFix).state.persistent_storage =
      { srFix.persistent_storage with last_voted_round := vpFix.block.round } ∧
    (construct_and_sign_vote srFix vpFix).trace =
      [.setLastVotedRound vpFix.block.round,
        .signed (.voteMsg (construct_ledger_info vpFix.block))] :=
  (construct_and_sign_vote_check_order srFix vpFix).2.2.2.2 (by decide)
    (by decide) (by decide) ⟨11, 5⟩ rfl

/-! ## C1: the vote round is persisted durably before any vote signature -/

/-- C1: whenever `construct_and_sign_vote` succeeds, the persisted
`last_voted_round` afterwards equals the proposal's block round, and in
every prefix of the operation's durable trace that already contains a
signature production, replaying that prefix onto the initial storage yields
`last_voted_round = block.round` — so no signature exists on any path on
which the write did not complete. -/
theorem construct_and_sign_vote_persists_before_signing (s : SafetyRules)
    (vp : VoteProposal) (v : Vote)
    (h : (construct_and_sign_vote s vp).result = .ok v) :
    (construct_and_sign_vote s vp).state.persistent_storage.last_voted_round =
      vp.block.round ∧
    ∀ n : Nat,
      ((construct_and_sign_vote s vp).trace.take n).any Event.isSigned = true →
      (((construct_and_sign_vote s vp).trace.take n).foldl applyEvent
          s.persistent_storage).last_voted_round = vp.block.round := by
  by_cases h1 : vp.block.epoch = s.persistent_storage.epoch
  · by_cases h2 : vp.block.round ≤ s.persistent_storage.last_voted_round
    · simp [construct_and_sign_vote, verify_epoch, h1, h2] at h
    · by_cases h3 : vp.block.quorum_cert.certified_block.round <
          s.persistent_storage.preferred_round
      · simp [construct_and_sign_vote, verify_epoch, h1, h2, h3] at h
      · cases hacc : vp.accumulator_extension_proof.verify
            vp.block.quorum_cert.certified_block.executed_state_id with
        | error e =>
          simp [construct_and_sign_vote, verify_epoch, h1, h2, h3, hacc] at h
        | ok nt =>
          refine ⟨by simp [construct_and_sign_vote, verify_epoch,
            h1, h2, h3, hacc], fun n hn => ?_⟩
          simp only [construct_and_sign_vote, verify_epoch, h1, h2, h3, hacc,
            if_neg, if_pos] at hn ⊢
          simp only [ne_eq, h1, not_true_eq_false, if_false, if_neg h2,
            if_neg h3] at hn ⊢
          match n with
          | 0 => simp at hn
          | 1 => simp [Event.isSigned] at hn
          | (m + 2) => simp [applyEvent]
  · simp [construct_and_sign_vote, verify_epoch, h1] at h

/-- Witness for C1: the fixture proposal at round 3 succeeds, and the
persisted round afterwards is 3. -/
theorem construct_and_sign_vote_persists_before_signing_witness :
    (∃ v, (construct_and_sign_vote srFix vpFix).result = .ok v) ∧
    (construct_and_sign_vote srFix vpFix).state.persistent_storage.last_voted_round =
      vpFix.block.round :=
  ⟨⟨_, rfl⟩,
    (construct_and_sign_vote_persists_before_signing srFix vpFix _ rfl).1⟩

/-! ## C3: the timeout signing rules -/

/-- C3: after the epoch check, `sign_timeout` rejects `round ≤
preferred_round` with `BadTimeoutPreferredRound`, then `round <
last_voted_round` with `BadTimeoutLastVotedRound`; a strictly greater round
is persisted as the new `last_voted_round` before signing, an equal round
signs without any write, and after every success the persisted
`last_voted_round` is at least the timeout round. -/
theorem sign_timeout_rules (s : SafetyRules) (t : Timeout)
    (heq : t.epoch = s.persistent_storage.epoch) :
    (t.round ≤ s.persistent_storage.preferred_round →
      (sign_timeout s t).result =
        .error (.BadTimeoutPreferredRound t.round
          s.persistent_storage.preferred_round) ∧
      (sign_timeout s t).state = s ∧ (sign_timeout s t).trace = []) ∧
    (s.persistent_storage.preferred_round < t.round →
      t.round < s.persistent_storage.last_voted_round →
      (sign_timeout s t).result =
        .error (.BadTimeoutLastVotedRound t.round
          s.persistent_storage.last_voted_round) ∧
      (sign_timeout s t).state = s ∧ (sign_timeout s t).trace = []) ∧
    (s.persistent_storage.preferred_round < t.round →
      s.persistent_storage.last_voted_round < t.round →
      (sign_timeout s t).result = .ok (t.sign s.validator_signer) ∧
      (sign_timeout s t).state.persistent_storage =
        { s.persistent_storage with last_voted_round := t.round } ∧
      (sign_timeout s t).trace =
        [.setLastVotedRound t.round, .signed (.timeoutMsg t.epoch t.round)]) ∧
    (s.persistent_storage.preferred_round < t.round →
      t.round = s.persistent_storage.last_voted_round →
      (sign_timeout s t).result = .ok (t.sign s.validator_signer) ∧
      (sign_timeout s t).state = s ∧
      (sign_timeout s t).trace = [.signed (.timeoutMsg t.epoch t.round)]) ∧
    (∀ sig, (sign_timeout s t).result = .ok sig →
      t.round ≤ (sign_timeout s t).state.persistent_storage.last_voted_round) := by
  refine ⟨fun h1 => ?_, fun h1 h2 => ?_, fun h1 h2 => ?_, fun h1 h2 => ?_,
    fun sig hsig => ?_⟩
  · simp [sign_timeout, verify_epoch, heq, h1]
  · have h1' : ¬ t.round ≤ s.persistent_storage.preferred_round := by omega
    simp [sign_timeout, verify_epoch, heq, h1', h2]
  · have h1' : ¬ t.round ≤ s.persistent_storage.preferred_round := by omega
    have h2' : ¬ t.round < s.persistent_storage.last_voted_round := by omega
    simp [sign_timeout, verify_epoch, heq, h1', h2', h2]
  · have h1' : ¬ t.round ≤ s.persistent_storage.preferred_round := by omega
    have h2' : ¬ t.round < s.persistent_storage.last_voted_round := by omega
    have h3' : ¬ s.persistent_storage.last_voted_round < t.round := by omega
    simp [sign_timeout, verify_epoch, heq, h1', h2', h3']
  · by_cases h1 : t.round ≤ s.persistent_storage.preferred_round
    · simp [sign_timeout, verify_epoch, heq, h1] at hsig
    · by_cases h2 : t.round < s.persistent_storage.last_voted_round
      · simp [sign_timeout, verify_epoch, heq, h1, h2] at hsig
      · by_cases h3 : s.persistent_storage.last_voted_round < t.round
        · simp [sign_timeout, verify_epoch, heq, h1, h2, h3]
        · have h4 : t.round = s.persistent_storage.last_voted_round := by omega
          have h5 : ¬ s.persistent_storage.last_voted_round ≤
              s.persistent_storage.preferred_round := by omega
          simp [sign_timeout, verify_epoch, heq, h1, h2, h3, h4, h5]

/-- Witness for C3: with stored rounds 0, a timeout at round 2 is persisted
and signed. -/
theorem sign_timeout_rules_witness :
    (sign_timeout srFix { epoch := 1, round := 2 }).result =
      .ok (Timeout.sign { epoch := 1, round := 2 } srFix.validator_signer) ∧
    (sign_timeout srFix { epoch := 1, round := 2 }).state.persistent_storage =
      { srFix.persistent_storage with last_voted_round := 2 } ∧
    (sign_timeout srFix { epoch := 1, round := 2 }).trace =
      [.setLastVotedRound 2, .signed (.timeoutMsg 1 2)] :=
  (sign_timeout_rules srFix { epoch := 1, round := 2 } (by decide)).2.2.1
    (by decide) (by decide)

/-! ## C4: QC admission and the preferred round -/

/-- A successful `verify_qc` implies the QC's parent round does not regress
below the stored preferred round. -/
theorem verify_qc_ok_parent_round (s : SafetyRules) (qc : QuorumCert)
    (h : verify_qc s qc = .ok ()) :
    s.persistent_storage.preferred_round ≤ qc.parent_block.round := by
  simp only [verify_qc] at h
  split at h
  · simp at h
  · split at h
    · simp at h
    · split at h
      · simp at h
      · omega

/-- C4: `update(qc)` fails with `NotInitialized` when the verifier is
absent and with `InvalidQuorumCertificate` when the aggregated signatures
fail or the parent round is below the preferred round; a verified
epoch-ending QC performs the epoch transition on the QC's ledger info, and a
verified ordinary QC leaves `preferred_round` at `max(preferred_round,
parent_block.round)`. -/
theorem update_admission (s : SafetyRules) (qc : QuorumCert) :
    (s.validator_verifier = none →
      (update s qc).result = .error .NotInitialized ∧
      (update s qc).state = s ∧ (update s qc).trace = []) ∧
    (∀ vv e, s.validator_verifier = some vv →
      qc.verify_result vv = .error e →
      (update s qc).result = .error (.InvalidQuorumCertificate e) ∧
      (update s qc).state = s ∧ (update s qc).trace = []) ∧
    (∀ vv, s.validator_verifier = some vv →
      qc.verify_result vv = .ok () →
      qc.parent_block.round < s.persistent_storage.preferred_round →
      (update s qc).result =
        .error (.InvalidQuorumCertificate "Preferred round too early") ∧
      (update s qc).state = s ∧ (update s qc).trace = []) ∧
    (verify_qc s qc = .ok () → qc.ends_epoch = true →
      update s qc = start_new_epoch s qc.ledger_info) ∧
    (verify_qc s qc = .ok () → qc.ends_epoch = false →
      (update s qc).result = .ok () ∧
      (update s qc).state.persistent_storage.preferred_round =
        max s.persistent_storage.preferred_round qc.parent_block.round) := by
  refine ⟨fun h1 => ?_, fun vv e h1 h2 => ?_, fun vv h1 h2 h3 => ?_,
    fun hv he => ?_, fun hv he => ?_⟩
  · simp [update, verify_qc, h1]
  · simp [update, verify_qc, h1, h2]
  · simp [update, verify_qc, h1, h2, h3]
  · simp [update, hv, he]
  · have hge := verify_qc_ok_parent_round s qc hv
    simp [update, hv, he, Nat.max_eq_right hge]

/-- Witness for C4: the verified non-epoch-ending fixture QC raises the
preferred round from 0 to its parent round 1. -/
theorem update_admission_witness :
    (update srInit qcFix).result = .ok () ∧
    (update srInit qcFix).state.persistent_storage.preferred_round =
      max srInit.persistent_storage.preferred_round qcFix.parent_block.round :=
  (update_admission srInit qcFix).2.2.2.2 rfl rfl

/-! ## C6: ordered durable writes of the epoch-start routine -/

/-- C6: when the ledger info's next epoch is newer than the stored one, the
epoch-start routine issues exactly four durable writes — waypoint, then
`last_voted_round := 0`, then `preferred_round := 0`, then the epoch last;
when the next epoch is not newer it writes nothing and only replaces the
in-memory verifier; a ledger info without a next epoch state yields
`InvalidLedgerInfo` with no writes. -/
theorem start_new_epoch_write_order (s : SafetyRules) (li : LedgerInfo) :
    (li.next_epoch_state = none →
      (start_new_epoch s li).result = .error .InvalidLedgerInfo ∧
      (start_new_epoch s li).state = s ∧
      (start_new_epoch s li).trace = []) ∧
    (∀ es, li.next_epoch_state = some es →
      s.persistent_storage.epoch < es.epoch →
      (start_new_epoch s li).result = .ok () ∧
      (start_new_epoch s li).trace =
        [.setWaypoint (Waypoint.new_epoch_boundary li), .setLastVotedRound 0,
          .setPreferredRound 0, .setEpoch es.epoch]) ∧
    (∀ es, li.next_epoch_state = some es →
      es.epoch ≤ s.persistent_storage.epoch →
      (start_new_epoch s li).result = .ok () ∧
      (start_new_epoch s li).state.persistent_storage =
        s.persistent_storage ∧
      (start_new_epoch s li).state.validator_verifier = some es.verifier ∧
      (start_new_epoch s li).trace = []) := by
  refine ⟨fun h1 => ?_, fun es h1 h2 => ?_, fun es h1 h2 => ?_⟩
  · simp [start_new_epoch, h1]
  · simp [start_new_epoch, h1, h2]
  · have h2' : ¬ s.persistent_storage.epoch < es.epoch := by omega
    simp [start_new_epoch, h1, h2']

/-- An epoch-ending ledger info fixture announcing epoch 2. -/
def liEnd : LedgerInfo :=
  LedgerInfo.new
    { BlockInfo.empty with
      epoch := 1,
      next_epoch_state := some { epoch := 2, verifier := 7 } } 0

/-- Witness for C6: on the epoch-1 fixture kernel, the epoch-2 ledger info
produces exactly the four ordered writes. -/
theorem start_new_epoch_write_order_witness :
    (start_new_epoch srInit liEnd).result = .ok () ∧
    (start_new_epoch srInit liEnd).trace =
      [.setWaypoint (Waypoint.new_epoch_boundary liEnd), .setLastVotedRound 0,
        .setPreferredRound 0, .setEpoch 2] :=
  (start_new_epoch_write_order srInit liEnd).2.1
    { epoch := 2, verifier := 7 } rfl (by decide)

/-! ## C9: update as a persistent no-op at or below the preferred round -/

/-- A valid epoch-ending QC whose parent round equals the stored preferred
round (0): it passes `verify_qc` and then triggers the epoch transition. -/
def qcEndsEpoch : QuorumCert :=
  { certified_block := biAt 1 1, parent_block := biAt 1 0,
    ledger_info := liEnd, verify_result := fun _ => .ok () }

/-- Counterexample to C9 as stated: on the epoch-1 kernel, the valid
epoch-ending QC `qcEndsEpoch` has parent round `0 ≤ preferred_round = 0`,
yet `update` succeeds and changes the persistent state (it bumps the epoch
to 2). -/
theorem update_noop_counterexample :
    qcEndsEpoch.parent_block.round ≤
      srInit.persistent_storage.preferred_round ∧
    (update srInit qcEndsEpoch).result = .ok () ∧
    (update srInit qcEndsEpoch).state.persistent_storage ≠
      srInit.persistent_storage := by
  refine ⟨by decide, rfl, by decide⟩

/-- C9 amended: for a QC that does not end the epoch, a parent round at or
below the preferred round leaves the persistent state unchanged; signature
validity is still required (an invalid aggregated signature yields
`InvalidQuorumCertificate`); and a parent round strictly below the
preferred round leaves the state unchanged and yields
`InvalidQuorumCertificate` even when the signatures are valid. -/
theorem update_noop_amended (s : SafetyRules) (qc : QuorumCert) :
    (qc.ends_epoch = false →
      qc.parent_block.round ≤ s.persistent_storage.preferred_round →
      (update s qc).state.persistent_storage = s.persistent_storage) ∧
    (∀ vv e, s.validator_verifier = some vv →
      qc.verify_result vv = .error e →
      (update s qc).result = .error (.InvalidQuorumCertificate e) ∧
      (update s qc).state.persistent_storage = s.persistent_storage) ∧
    (qc.parent_block.round < s.persistent_storage.preferred_round →
      (update s qc).state.persistent_storage = s.persistent_storage ∧
      ∀ vv, s.validator_verifier = some vv → qc.verify_result vv = .ok () →
        (update s qc).result =
          .error (.InvalidQuorumCertificate "Preferred round too early")) := by
  refine ⟨fun hend hle => ?_, fun vv e h1 h2 => ?_, fun hlt => ⟨?_, ?_⟩⟩
  · cases hv : verify_qc s qc with
    | error e => simp [update, hv]
    | ok u =>
      cases u
      have hge := verify_qc_ok_parent_round s qc hv
      have heq : qc.parent_block.round =
          s.persistent_storage.preferred_round := by omega
      simp [update, hv, hend, heq]
  · simp [update, verify_qc, h1, h2]
  · have he : ∃ e, verify_qc s qc = .error e := by
      simp only [verify_qc]
      split
      · exact ⟨_, rfl⟩
      · split
        · exact ⟨_, rfl⟩
        · rw [if_pos hlt]; exact ⟨_, rfl⟩
    obtain ⟨e, he⟩ := he
    simp [update, he]
  · intro vv h1 h2
    simp [update, verify_qc, h1, h2, hlt]

/-- The fixture kernel with preferred round raised to 1. -/
def srPref1 : SafetyRules :=
  { srInit with persistent_storage :=
      { storageFix with preferred_round := 1 } }

/-- Witness for the amended C9: the non-epoch-ending `qcFix` at parent round
1 equal to the stored preferred round leaves the persistent state
unchanged. -/
theorem update_noop_amended_witness :
    (update srPref1 qcFix).state.persistent_storage =
      srPref1.persistent_storage :=
  (update_noop_amended srPref1 qcFix).1 rfl (by decide)

/-! ## C8: idempotence of kernel initialization -/

/-- C8: if `initialize` succeeds and the proof still chains from the
then-current waypoint, running it again with the same proof succeeds and
leaves all five persistent records unchanged — the epoch guard of the
epoch-start routine prevents the write sequence from re-running. -/
theorem initialize_kernel_idempotent (s : SafetyRules)
    (proof : EpochChangeProof)
    (h1 : (initialize_kernel s proof).result = .ok ())
    (h2 : proof.chains_from
      (initialize_kernel s proof).state.persistent_storage.waypoint = true) :
    (initialize_kernel (initialize_kernel s proof).state proof).result =
      .ok () ∧
    (initialize_kernel (initialize_kernel s proof).state
        proof).state.persistent_storage =
      (initialize_kernel s proof).state.persistent_storage := by
  simp only [initialize_kernel, EpochChangeProof.verify] at h1 h2 ⊢
  by_cases hc : proof.chains_from s.persistent_storage.waypoint
  · simp only [hc, if_true] at h1 h2 ⊢
    cases hnes : proof.last_li.next_epoch_state with
    | none => simp [start_new_epoch, hnes] at h1
    | some es =>
      by_cases hlt : s.persistent_storage.epoch < es.epoch
      · simp only [start_new_epoch, hnes, hlt, if_true] at h2 ⊢
        have hguard : ¬ es.epoch < es.epoch := by omega
        simp [h2, start_new_epoch, hnes, hguard]
      · simp only [start_new_epoch, hnes, hlt, if_false] at h2 ⊢
        simp [h2, start_new_epoch, hnes, hlt]
  · simp [hc] at h1

/-- An epoch-change proof fixture that chains from every waypoint and ends
at the epoch-2 ledger info. -/
def ecpFix : EpochChangeProof :=
  { last_li := liEnd, chains_from := fun _ => true }

/-- Witness for C8: initializing the fixture kernel with `ecpFix` succeeds,
and a second run of the same call changes nothing persistent. -/
theorem initialize_kernel_idempotent_witness :
    (initialize_kernel (initialize_kernel srFix ecpFix).state ecpFix).result =
      .ok () ∧
    (initialize_kernel (initialize_kernel srFix ecpFix).state
        ecpFix).state.persistent_storage =
      (initialize_kernel srFix ecpFix).state.persistent_storage :=
  initialize_kernel_idempotent srFix ecpFix rfl rfl

/-! ## C7: monotonicity of epoch and preferred round -/

/-- The epoch-start routine either leaves the persistent storage untouched
or strictly increases the persisted epoch. -/
theorem start_new_epoch_storage (s : SafetyRules) (li : LedgerInfo) :
    (start_new_epoch s li).state.persistent_storage = s.persistent_storage ∨
    s.persistent_storage.epoch <
      (start_new_epoch s li).state.persistent_storage.epoch := by
  cases hnes : li.next_epoch_state with
  | none => left; simp [start_new_epoch, hnes]
  | some es =>
    by_cases hlt : s.persistent_storage.epoch < es.epoch
    · right; simp [start_new_epoch, hnes, hlt]
    · left; simp [start_new_epoch, hnes, hlt]

/-- Every `set_preferred_round` write of the epoch-start routine writes 0
and sits inside an epoch bump. -/
theorem start_new_epoch_pref_events (s : SafetyRules) (li : LedgerInfo)
    (r : Nat) (h : Event.setPreferredRound r ∈ (start_new_epoch s li).trace) :
    r = 0 ∧ s.persistent_storage.epoch <
      (start_new_epoch s li).state.persistent_storage.epoch := by
  cases hnes : li.next_epoch_state with
  | none => simp [start_new_epoch, hnes] at h
  | some es =>
    by_cases hlt : s.persistent_storage.epoch < es.epoch
    · simp only [start_new_epoch, hnes, hlt, if_true] at h ⊢
      simp at h
      simp [h, hlt]
    · simp [start_new_epoch, hnes, hlt] at h

/-- One kernel operation never decreases the persisted epoch, and never
decreases the persisted preferred round unless it bumps the epoch. -/
theorem runOp_monotone (s : SafetyRules) (op : Op) :
    s.persistent_storage.epoch ≤ (runOp s op).persistent_storage.epoch ∧
    ((runOp s op).persistent_storage.epoch = s.persistent_storage.epoch →
      s.persistent_storage.preferred_round ≤
        (runOp s op).persistent_storage.preferred_round) := by
  cases op with
  | consensusStateOp => simp [runOp, stepOp, consensus_state]
  | initOp proof =>
    rcases hv : proof.verify s.persistent_storage.waypoint with e | last_li
    · simp [runOp, stepOp, initialize_kernel, hv]
    · have hd := start_new_epoch_storage s last_li
      rcases hd with hsame | hbump
      · simp [runOp, stepOp, initialize_kernel, hv, hsame]
      · simp only [runOp, stepOp, initialize_kernel, hv]
        exact ⟨by omega, by omega⟩
  | updateOp qc =>
    rcases hv : verify_qc s qc with e | u
    · simp [runOp, stepOp, update, hv]
    · cases u
      by_cases hend : qc.ends_epoch
      · have hd := start_new_epoch_storage s qc.ledger_info
        rcases hd with hsame | hbump
        · simp [runOp, stepOp, update, hv, hend, hsame]
        · simp only [runOp, stepOp, update, hv, hend, if_true]
          exact ⟨by omega, by omega⟩
      · have hge := verify_qc_ok_parent_round s qc hv
        simp [runOp, stepOp, update, hv, hend, hge]
  | voteOp vp =>
    by_cases h1 : vp.block.epoch = s.persistent_storage.epoch
    · by_cases h2 : vp.block.round ≤ s.persistent_storage.last_voted_round
      · simp [runOp, stepOp, construct_and_sign_vote, verify_epoch, h1, h2]
      · by_cases h3 : vp.block.quorum_cert.certified_block.round <
            s.persistent_storage.preferred_round
        · simp [runOp, stepOp, construct_and_sign_vote, verify_epoch,
            h1, h2, h3]
        · rcases hacc : vp.accumulator_extension_proof.verify
              vp.block.quorum_cert.certified_block.executed_state_id with
            e | nt
          · simp [runOp, stepOp, construct_and_sign_vote, verify_epoch,
              h1, h2, h3, hacc]
          · simp [runOp, stepOp, construct_and_sign_vote, verify_epoch,
              h1, h2, h3, hacc]
    · simp [runOp, stepOp, construct_and_sign_vote, verify_epoch, h1]
  | proposalOp bd => simp [runOp, stepOp, sign_proposal]
  | timeoutOp t =>
    by_cases h1 : t.epoch = s.persistent_storage.epoch
    · by_cases h2 : t.round ≤ s.persistent_storage.preferred_round
      · simp [runOp, stepOp, sign_timeout, verify_epoch, h1, h2]
      · by_cases h3 : t.round < s.persistent_storage.last_voted_round
        · simp [runOp, stepOp, sign_timeout, verify_epoch, h1, h2, h3]
        · by_cases h4 : s.persistent_storage.last_voted_round < t.round
          · simp [runOp, stepOp, sign_timeout, verify_epoch, h1, h2, h3, h4]
          · simp [runOp, stepOp, sign_timeout, verify_epoch, h1, h2, h3, h4]
    · simp [runOp, stepOp, sign_timeout, verify_epoch, h1]

/-- Monotonicity of epoch and of the within-epoch preferred round over a
whole sequence of kernel operations, by induction from `runOp_monotone`. -/
theorem foldl_runOp_monotone (s : SafetyRules) (ops : List Op) :
    s.persistent_storage.epoch ≤
      (ops.foldl runOp s).persistent_storage.epoch ∧
    ((ops.foldl runOp s).persistent_storage.epoch =
        s.persistent_storage.epoch →
      s.persistent_storage.preferred_round ≤
        (ops.foldl runOp s).persistent_storage.preferred_round) := by
  induction ops generalizing s with
  | nil => simp
  | cons op rest ih =>
    have hstep := runOp_monotone s op
    have hrest := ih (runOp s op)
    have ha := hstep.1
    have hb := hrest.1
    simp only [List.foldl_cons]
    refine ⟨by omega, fun he => ?_⟩
    have h2 := hstep.2 (by omega)
    have h3 := hrest.2 (by omega)
    omega

/-- C7: across every sequence of the six kernel operations the persisted
epoch never decreases; between two states with the same epoch the persisted
preferred round never decreases; and every durable write of
`preferred_round` is either the reset to 0 inside an epoch bump or a value
at least the previous preferred round. -/
theorem kernel_monotonicity (s : SafetyRules) (ops : List Op) :
    s.persistent_storage.epoch ≤
      (ops.foldl runOp s).persistent_storage.epoch ∧
    ((ops.foldl runOp s).persistent_storage.epoch =
        s.persistent_storage.epoch →
      s.persistent_storage.preferred_round ≤
        (ops.foldl runOp s).persistent_storage.preferred_round) ∧
    (∀ op r, Event.setPreferredRound r ∈ (stepOp s op).2 →
      (r = 0 ∧ s.persistent_storage.epoch <
        (runOp s op).persistent_storage.epoch) ∨
      s.persistent_storage.preferred_round ≤ r) := by
  refine ⟨(foldl_runOp_monotone s ops).1, (foldl_runOp_monotone s ops).2, ?_⟩
  intro op r hmem
  cases op with
    | consensusStateOp => simp [stepOp, consensus_state] at hmem
    | initOp proof =>
      rcases hv : proof.verify s.persistent_storage.waypoint with e | last_li
      · simp [stepOp, initialize_kernel, hv] at hmem
      · simp only [stepOp, initialize_kernel, hv] at hmem
        left
        have := start_new_epoch_pref_events s last_li r hmem
        simpa [runOp, stepOp, initialize_kernel, hv] using this
    | updateOp qc =>
      rcases hv : verify_qc s qc with e | u
      · simp [stepOp, update, hv] at hmem
      · cases u
        by_cases hend : qc.ends_epoch
        · simp only [stepOp, update, hv, hend, if_true] at hmem
          left
          have := start_new_epoch_pref_events s qc.ledger_info r hmem
          simpa [runOp, stepOp, update, hv, hend] using this
        · right
          have hge := verify_qc_ok_parent_round s qc hv
          simp [stepOp, update, hv, hend] at hmem
          omega
    | voteOp vp =>
      by_cases h1 : vp.block.epoch = s.persistent_storage.epoch
      · by_cases h2 : vp.block.round ≤ s.persistent_storage.last_voted_round
        · simp [stepOp, construct_and_sign_vote, verify_epoch, h1, h2] at hmem
        · by_cases h3 : vp.block.quorum_cert.certified_block.round <
              s.persistent_storage.preferred_round
          · simp [stepOp, construct_and_sign_vote, verify_epoch,
              h1, h2, h3] at hmem
          · rcases hacc : vp.accumulator_extension_proof.verify
                vp.block.quorum_cert.certified_block.executed_state_id with
              e | nt
            · simp [stepOp, construct_and_sign_vote, verify_epoch,
                h1, h2, h3, hacc] at hmem
            · simp [stepOp, construct_and_sign_vote, verify_epoch,
                h1, h2, h3, hacc] at hmem
      · simp [stepOp, construct_and_sign_vote, verify_epoch, h1] at hmem
    | proposalOp bd => simp [stepOp, sign_proposal] at hmem
    | timeoutOp t =>
      by_cases h1 : t.epoch = s.persistent_storage.epoch
      · by_cases h2 : t.round ≤ s.persistent_storage.preferred_round
        · simp [stepOp, sign_timeout, verify_epoch, h1, h2] at hmem
        · by_cases h3 : t.round < s.persistent_storage.last_voted_round
          · simp [stepOp, sign_timeout, verify_epoch, h1, h2, h3] at hmem
          · by_cases h4 : s.persistent_storage.last_voted_round < t.round
            · simp [stepOp, sign_timeout, verify_epoch, h1, h2, h3,
                h4] at hmem
            · simp [stepOp, sign_timeout, verify_epoch, h1, h2, h3,
                h4] at hmem
      · simp [stepOp, sign_timeout, verify_epoch, h1] at hmem

/-- Witness for C7: one admitted QC keeps the epoch at 1 and raises the
preferred round from 0 to 1, never decreasing either. -/
theorem kernel_monotonicity_witness :
    srInit.persistent_storage.epoch ≤
      ([Op.updateOp qcFix].foldl runOp srInit).persistent_storage.epoch ∧
    srInit.persistent_storage.preferred_round ≤
      ([Op.updateOp qcFix].foldl runOp
        srInit).persistent_storage.preferred_round :=
  ⟨(kernel_monotonicity srInit [Op.updateOp qcFix]).1,
    (kernel_monotonicity srInit [Op.updateOp qcFix]).2.1 (by decide)⟩

/-! ## C10: only update consults the validator verifier -/

/-- The kernel with its optional verifier replaced. -/
def withVerifier (s : SafetyRules) (v : Option ValidatorVerifier) :
    SafetyRules :=
  { s with validator_verifier := v }

/-- The vote proposal with the abstracted aggregated-signature outcome of
its block's QC replaced. -/
def withQcVerify (vp : VoteProposal)
    (f : ValidatorVerifier → Except String Unit) : VoteProposal :=
  { vp with block :=
      { vp.block with block_data :=
          { vp.block.block_data with quorum_cert :=
              { vp.block.block_data.quorum_cert with verify_result := f } } } }

/-- C10: `consensus_state`, `construct_and_sign_vote`, `sign_proposal` and
`sign_timeout` never consult the optional validator verifier — their result,
persistent state and trace are unchanged under any replacement of it, and
none of them (nor `initialize`) can fail with `NotInitialized`, while
`update` on an uninitialized kernel always does; `sign_proposal` succeeds
for every block data; `construct_and_sign_vote` never looks at the
proposal's QC signature outcome; and on the never-initialized fixture
kernel a vote and a timeout both succeed. -/
theorem only_update_consults_verifier (s : SafetyRules) :
    (∀ v, (consensus_state (withVerifier s v)).result =
      (consensus_state s).result) ∧
    (∀ v vp,
      (construct_and_sign_vote (withVerifier s v) vp).result =
        (construct_and_sign_vote s vp).result ∧
      (construct_and_sign_vote (withVerifier s v) vp).state.persistent_storage =
        (construct_and_sign_vote s vp).state.persistent_storage ∧
      (construct_and_sign_vote (withVerifier s v) vp).trace =
        (construct_and_sign_vote s vp).trace) ∧
    (∀ v bd,
      (sign_proposal (withVerifier s v) bd).result =
        (sign_proposal s bd).result ∧
      (sign_proposal (withVerifier s v) bd).state.persistent_storage =
        (sign_proposal s bd).state.persistent_storage ∧
      (sign_proposal (withVerifier s v) bd).trace =
        (sign_proposal s bd).trace) ∧
    (∀ v t,
      (sign_timeout (withVerifier s v) t).result =
        (sign_timeout s t).result ∧
      (sign_timeout (withVerifier s v) t).state.persistent_storage =
        (sign_timeout s t).state.persistent_storage ∧
      (sign_timeout (withVerifier s v) t).trace =
        (sign_timeout s t).trace) ∧
    ((consensus_state s).result ≠ .error .NotInitialized) ∧
    (∀ vp, (construct_and_sign_vote s vp).result ≠
      .error .NotInitialized) ∧
    (∀ bd, (sign_proposal s bd).result =
      .ok (Block.new_proposal_from_block_data bd s.validator_signer)) ∧
    (∀ t, (sign_timeout s t).result ≠ .error .NotInitialized) ∧
    (∀ proof, (initialize_kernel s proof).result ≠
      .error .NotInitialized) ∧
    (s.validator_verifier = none → ∀ qc,
      (update s qc).result = .error .NotInitialized) ∧
    (∀ vp f,
      (construct_and_sign_vote s (withQcVerify vp f)).result =
        (construct_and_sign_vote s vp).result ∧
      (construct_and_sign_vote s (withQcVerify vp f)).state =
        (construct_and_sign_vote s vp).state ∧
      (construct_and_sign_vote s (withQcVerify vp f)).trace =
        (construct_and_sign_vote s vp).trace) ∧
    (∃ v, (construct_and_sign_vote srFix vpFix).result = .ok v) ∧
    (∃ sg, (sign_timeout srFix { epoch := 1, round := 2 }).result = .ok sg) ∧
    srFix.validator_verifier = none := by
  refine ⟨fun v => rfl, fun v vp => ?_, fun v bd => ⟨rfl, rfl, rfl⟩,
    fun v t => ?_, ?_, fun vp => ?_, fun bd => rfl, fun t => ?_,
    fun proof => ?_, fun hnone qc => ?_, fun vp f => ?_,
    ⟨_, rfl⟩, ⟨_, rfl⟩, rfl⟩
  · refine ⟨?_, ?_, ?_⟩ <;>
      simp only [construct_and_sign_vote, verify_epoch, withVerifier] <;>
      (repeat' split) <;> rfl
  · refine ⟨?_, ?_, ?_⟩ <;>
      simp only [sign_timeout, verify_epoch, withVerifier] <;>
      (repeat' split) <;> rfl
  · simp [consensus_state]
  · simp only [construct_and_sign_vote, verify_epoch]
    split
    · rename_i e heq
      split at heq <;> simp_all [Eq.comm]
    · repeat' split
      all_goals simp
  · simp only [sign_timeout, verify_epoch]
    split
    · rename_i e heq
      split at heq <;> simp_all [Eq.comm]
    · repeat' split
      all_goals simp
  · simp only [initialize_kernel]
    split
    · simp
    · simp only [start_new_epoch]
      split
      · simp
      · split
        · simp
        · simp
  · simp [update, verify_qc, hnone]
  · refine ⟨?_, ?_, ?_⟩ <;>
      simp only [construct_and_sign_vote, verify_epoch, withQcVerify,
        Block.epoch, Block.round, Block.quorum_cert, construct_ledger_info,
        Block.gen_block_info, Vote.new, LedgerInfo.new]

/-- Witness for C10: on the uninitialized fixture kernel, `update` fails
with `NotInitialized`. -/
theorem only_update_consults_verifier_witness :
    (update srFix qcFix).result = .error .NotInitialized :=
  (only_update_consults_verifier srFix).2.2.2.2.2.2.2.2.2.1 rfl qcFix

end LibraSafetyRules
